import Mathlib

/-!
Shallow embedding of the Rock-Paper-Scissors gesture game.

Sources:
- src/src/App.tsx : React front end with the round controller
  (playRound), gesture prediction (predictGesture) and the outcome
  resolver (determineWinner).
- src/rps-model/src/train.ts : training script (64x64 preprocessing).
- src/rps-model/src/predict.ts : prediction script (16x16 preprocessing).

External collaborators (the TensorFlow model, the MediaPipe hand
locator, the browser canvas) appear as explicit function parameters of
the environment; the logic of the repository itself is embedded
directly. JavaScript numbers that only ever hold small integers are
embedded as Int or Nat; fractional pixel coordinates are embedded as
rationals.
-/

/-- The three gestures, from the CLASSES constant in App.tsx line 38. -/
inductive Gesture where
  | rock
  | paper
  | scissors
deriving DecidableEq, Repr

/-- Result of one round, the return type of determineWinner in App.tsx. -/
inductive GameResult where
  | win
  | lose
  | tie
deriving DecidableEq, Repr

/-- The fixed class ordering CLASSES = [rock, paper, scissors]. -/
def CLASSES : List Gesture := [.rock, .paper, .scissors]

/-- The wins lookup object inside determineWinner (App.tsx lines 378-382):
what each gesture beats. -/
def wins : Gesture → Gesture
  | .rock => .scissors
  | .paper => .rock
  | .scissors => .paper

/-- determineWinner from App.tsx lines 374-386: tie on equal gestures,
otherwise win exactly when the player gesture beats the computer gesture. -/
def determineWinner (player computer : Gesture) : GameResult :=
  if player = computer then .tie
  else if wins player = computer then .win else .lose

/-- The score record from App.tsx line 66: useState initialises all three
fields to 0 and they are only ever incremented, so they are embedded as
integers to keep non-negativity a real statement. -/
structure Score where
  player : Int
  computer : Int
  ties : Int
deriving DecidableEq, Repr

/-- Initial score from useState in App.tsx line 66. -/
def initialScore : Score := ⟨0, 0, 0⟩

/-- The setScore updater in playRound (App.tsx lines 425-430): the computed
key picks player on win, computer on lose and ties otherwise, and that one
field is incremented while the spread keeps the others. -/
def updateScore (result : GameResult) (prev : Score) : Score :=
  match result with
  | .win => { prev with player := prev.player + 1 }
  | .lose => { prev with computer := prev.computer + 1 }
  | .tie => { prev with ties := prev.ties + 1 }

/-- Folding the score updater over a sequence of resolved round results,
starting from the initial score. -/
def runRounds (results : List GameResult) : Score :=
  results.foldl (fun s r => updateScore r s) initialScore

/-- Sum of the three score fields. -/
def Score.total (s : Score) : Int := s.player + s.computer + s.ties

theorem updateScore_total (r : GameResult) (s : Score) :
    (updateScore r s).total = s.total + 1 := by
  cases r <;> simp [updateScore, Score.total] <;> ring

theorem updateScore_mono (r : GameResult) (s : Score) :
    s.player ≤ (updateScore r s).player ∧
    s.computer ≤ (updateScore r s).computer ∧
    s.ties ≤ (updateScore r s).ties := by
  cases r <;> simp [updateScore]

theorem foldl_updateScore_invariant (results : List GameResult) (s : Score) :
    (s.player ≤ (results.foldl (fun t r => updateScore r t) s).player ∧
     s.computer ≤ (results.foldl (fun t r => updateScore r t) s).computer ∧
     s.ties ≤ (results.foldl (fun t r => updateScore r t) s).ties) ∧
    (results.foldl (fun t r => updateScore r t) s).total =
      s.total + results.length := by
  induction results generalizing s with
  | nil => simp
  | cons r rest ih =>
    have hmono := updateScore_mono r s
    have htot := updateScore_total r s
    have := ih (updateScore r s)
    simp only [List.foldl_cons, List.length_cons] at *
    obtain ⟨⟨a1, a2, a3⟩, a4⟩ := this
    obtain ⟨m1, m2, m3⟩ := hmono
    exact ⟨⟨le_trans m1 a1, le_trans m2 a2, le_trans m3 a3⟩, by omega⟩

/-- C1: the outcome resolver returns tie exactly on equal gestures and
otherwise returns win exactly on the pairs (rock, scissors), (paper, rock)
and (scissors, paper), and lose on every remaining pair, matching the
lookup table of the specification. -/
theorem determineWinner_matches_table (p c : Gesture) :
    (determineWinner p c = .tie ↔ p = c) ∧
    (determineWinner p c = .win ↔
      ((p = .rock ∧ c = .scissors) ∨ (p = .paper ∧ c = .rock) ∨
       (p = .scissors ∧ c = .paper))) ∧
    (determineWinner p c = .lose ↔
      (p ≠ c ∧ ¬((p = .rock ∧ c = .scissors) ∨ (p = .paper ∧ c = .rock) ∨
       (p = .scissors ∧ c = .paper)))) := by
  cases p <;> cases c <;> decide

/-- C2: each completed round increments exactly the field picked by the
result (player on win, computer on lose, ties on tie) and leaves the other
two fields unchanged; every update is monotone in all three fields; and
after any sequence of completed rounds all fields are non-negative and the
three fields sum to the number of resolved rounds. Also, any playRound
either leaves the score untouched or updates it through exactly one
updateScore step (stated below once playRound is defined, see
playRound_score_step). -/
theorem score_update_invariants :
    (∀ s : Score,
      updateScore .win s = { s with player := s.player + 1 } ∧
      updateScore .lose s = { s with computer := s.computer + 1 } ∧
      updateScore .tie s = { s with ties := s.ties + 1 }) ∧
    (∀ (r : GameResult) (s : Score),
      s.player ≤ (updateScore r s).player ∧
      s.computer ≤ (updateScore r s).computer ∧
      s.ties ≤ (updateScore r s).ties) ∧
    (∀ results : List GameResult,
      0 ≤ (runRounds results).player ∧
      0 ≤ (runRounds results).computer ∧
      0 ≤ (runRounds results).ties ∧
      (runRounds results).player + (runRounds results).computer +
        (runRounds results).ties = results.length) := by
  refine ⟨fun s => ⟨rfl, rfl, rfl⟩, updateScore_mono, fun results => ?_⟩
  have h := foldl_updateScore_invariant results initialScore
  simp only [runRounds, initialScore] at *
  obtain ⟨⟨h1, h2, h3⟩, h4⟩ := h
  simp only [Score.total] at h4
  refine ⟨by exact h1, by exact h2, by exact h3, by omega⟩

/-- Fractional bounding box with fields x, y, width, height, as stored in
the handBoundingBox state by the hand locator callback in App.tsx lines
135-140 (all values are fractions of the frame dimensions). -/
structure Box where
  x : ℚ
  y : ℚ
  width : ℚ
  height : ℚ
deriving DecidableEq, Repr

/-- PredictionResult from App.tsx lines 42-45: a gesture plus a confidence
value. -/
structure PredictionResult where
  gesture : Gesture
  confidence : ℚ
deriving DecidableEq, Repr

/-- The one failure mode of the prediction pipeline: the canvas getImageData
call throws an IndexSizeError when the requested rectangle has zero width or
zero height (the degenerate-crop InvalidRegion error of the specification). -/
inductive PredictError where
  | invalidRegion
deriving DecidableEq, Repr

/-- Environment of one predictGesture call: the component state it reads
plus the external collaborators (canvas pixel extraction, canvas resizing,
and the TensorFlow model) as opaque functions. -/
structure PredictEnv where
  modelLoaded : Bool
  videoAvailable : Bool
  canvasAvailable : Bool
  ctxAvailable : Bool
  videoWidth : ℚ
  videoHeight : ℚ
  handDetected : Bool
  handBoundingBox : Option Box
  framePixels : Box → List Nat
  resizePixels : List Nat → List Nat
  modelPredict : List ℚ → ℚ × ℚ × ℚ

/-- Tensor normalisation from App.tsx lines 344-346 and predict.ts lines
62-63: convert each raw 8-bit channel value to a float and divide by 255. -/
def normalizeTensor (data : List Nat) : List ℚ :=
  data.map (fun (v : Nat) => (v : ℚ) / 255)

/-- The length-3 probability vector of the classifier (its final dense
layer has 3 softmax units), as a list in class order. -/
def probsList (p : ℚ × ℚ × ℚ) : List ℚ := [p.1, p.2.1, p.2.2]

/-- JavaScript Math.max applied to a spread non-empty list of values
(App.tsx line 354, predict.ts line 68). -/
def mathMax (l : List ℚ) : ℚ := l.foldl max (l.headD 0)

/-- probabilities.indexOf of the maximal probability, App.tsx line 354 and
predict.ts line 68: the first index holding the maximum. -/
def maxIndex (p : ℚ × ℚ × ℚ) : Nat :=
  (probsList p).indexOf (mathMax (probsList p))

/-- CLASSES[maxIndex], App.tsx line 355 and predict.ts line 68. -/
def predictedGesture (p : ℚ × ℚ × ℚ) : Gesture :=
  CLASSES.getD (maxIndex p) .rock

/-- probabilities[maxIndex], App.tsx line 356. -/
def predictedConfidence (p : ℚ × ℚ × ℚ) : ℚ :=
  (probsList p).getD (maxIndex p) 0

/-- Crop-region selection from App.tsx lines 306-324: the detected hand
bounding box scaled to pixel coordinates when a hand was detected,
otherwise the centered square covering 60 percent of the shorter frame
dimension. -/
def cropRegion (env : PredictEnv) : Box :=
  match env.handDetected, env.handBoundingBox with
  | true, some box =>
    { x := box.x * env.videoWidth
      y := box.y * env.videoHeight
      width := box.width * env.videoWidth
      height := box.height * env.videoHeight }
  | _, _ =>
    let centerSize := min env.videoWidth env.videoHeight * (6 / 10)
    { x := (env.videoWidth - centerSize) / 2
      y := (env.videoHeight - centerSize) / 2
      width := centerSize
      height := centerSize }

/-- predictGesture from App.tsx lines 281-363. Guard checks return null;
the crop region is extracted with getImageData (which fails on a
zero-width or zero-height rectangle), resized to 16x16, normalised to a
tensor, fed to the model, and the arg-max class is returned with its
confidence. -/
def predictGesture (env : PredictEnv) :
    Except PredictError (Option PredictionResult) :=
  if !env.modelLoaded || !env.videoAvailable || !env.canvasAvailable then
    .ok none
  else if !env.ctxAvailable then
    .ok none
  else
    let region := cropRegion env
    if region.width = 0 ∨ region.height = 0 then
      .error .invalidRegion
    else
      let cropped := env.framePixels region
      let resized := env.resizePixels cropped
      let tensor := normalizeTensor resized
      let probs := env.modelPredict tensor
      .ok (some { gesture := predictedGesture probs
                  confidence := predictedConfidence probs })

/-- The component state read and written by one round (App.tsx lines
62-67). -/
structure AppState where
  isCameraActive : Bool
  isPlaying : Bool
  score : Score
  currentPrediction : Option PredictionResult
  computerChoice : Option Gesture
  gameResult : Option GameResult
deriving DecidableEq, Repr

/-- The state writes at the start of a round, App.tsx lines 403-404:
the in-flight guard is raised and the previous game result is cleared. -/
def roundStart (st : AppState) : AppState :=
  { st with isPlaying := true, gameResult := none }

/-- playRound from App.tsx lines 400-441. The computer gesture index
(Math.floor of Math.random times 3) is passed as an explicit Fin 3. The
early-return and catch branches both end in the finally block that lowers
the in-flight guard. -/
def playRound (st : AppState) (env : PredictEnv) (rand : Fin 3) : AppState :=
  if !st.isCameraActive || st.isPlaying then st
  else
    match predictGesture env with
    | .error _ => { roundStart st with isPlaying := false }
    | .ok none => { roundStart st with isPlaying := false }
    | .ok (some pr) =>
      let computerGesture := CLASSES.getD rand.val .rock
      let result := determineWinner pr.gesture computerGesture
      { roundStart st with
        currentPrediction := some pr
        computerChoice := some computerGesture
        gameResult := some result
        score := updateScore result (roundStart st).score
        isPlaying := false }

/-- One tick of the auto-play interval, App.tsx lines 444-454: the
interval only exists while the camera is active, and the tick only calls
playRound when no round is in flight. -/
def autoPlayTick (st : AppState) (env : PredictEnv) (rand : Fin 3) : AppState :=
  if !st.isCameraActive then st
  else if !st.isPlaying then playRound st env rand
  else st

theorem playRound_noop_when_playing (st : AppState) (env : PredictEnv)
    (rand : Fin 3) (h : st.isPlaying = true) : playRound st env rand = st := by
  simp [playRound, h]

theorem playRound_abort (st : AppState) (env : PredictEnv) (rand : Fin 3)
    (hcam : st.isCameraActive = true) (hplay : st.isPlaying = false)
    (hfail : predictGesture env = .ok none ∨
      ∃ e, predictGesture env = .error e) :
    playRound st env rand = { st with isPlaying := false, gameResult := none } := by
  simp only [playRound, hcam, hplay, Bool.not_true, Bool.or_false, Bool.false_eq_true,
    if_false]
  rcases hfail with h | ⟨e, h⟩ <;> rw [h] <;> simp [roundStart, hcam]

/-- C3: when capture or classification fails (the prediction step returns
null or raises), the round aborts: the score is exactly as before, the
in-flight guard is lowered, the controller state carries no resolved
outcome, and the prediction and computer-choice fields are untouched. -/
theorem round_abort_on_failure (st : AppState) (env : PredictEnv) (rand : Fin 3)
    (hcam : st.isCameraActive = true) (hplay : st.isPlaying = false)
    (hfail : predictGesture env = .ok none ∨
      ∃ e, predictGesture env = .error e) :
    playRound st env rand = { st with isPlaying := false, gameResult := none } ∧
    (playRound st env rand).score = st.score ∧
    (playRound st env rand).isPlaying = false ∧
    (playRound st env rand).gameResult = none ∧
    (playRound st env rand).currentPrediction = st.currentPrediction ∧
    (playRound st env rand).computerChoice = st.computerChoice := by
  have h := playRound_abort st env rand hcam hplay hfail
  rw [h]
  exact ⟨rfl, rfl, rfl, rfl, rfl, rfl⟩

/-- Concrete state for the capture-failure scenario: a previous round had
been resolved. -/
def st3 : AppState :=
  { isCameraActive := true
    isPlaying := false
    score := ⟨2, 1, 0⟩
    currentPrediction := none
    computerChoice := none
    gameResult := some .lose }

/-- Concrete environment in which capture fails: the video element is not
available, so predictGesture returns null. -/
def env3 : PredictEnv :=
  { modelLoaded := true
    videoAvailable := false
    canvasAvailable := true
    ctxAvailable := true
    videoWidth := 320
    videoHeight := 240
    handDetected := false
    handBoundingBox := none
    framePixels := fun _ => []
    resizePixels := fun _ => []
    modelPredict := fun _ => (1, 0, 0) }

theorem round_abort_on_failure_witness :
    playRound st3 env3 0 = { st3 with isPlaying := false, gameResult := none } ∧
    (playRound st3 env3 0).score = st3.score ∧
    (playRound st3 env3 0).isPlaying = false ∧
    (playRound st3 env3 0).gameResult = none ∧
    (playRound st3 env3 0).currentPrediction = st3.currentPrediction ∧
    (playRound st3 env3 0).computerChoice = st3.computerChoice :=
  round_abort_on_failure st3 env3 0 rfl rfl (Or.inl rfl)

/-- C4: the in-flight guard serialises rounds. A trigger that fires while
a round is in flight (isPlaying true) leaves the state untouched, both
for a direct playRound call and for an auto-play interval tick, and the
state reached right after a round starts has the guard raised, so a
second back-to-back trigger before the first round resolves is a no-op:
exactly one round executes. -/
theorem inflight_guard_drops_triggers (st : AppState) (env env2 : PredictEnv)
    (rand rand2 : Fin 3) :
    (st.isPlaying = true →
      playRound st env rand = st ∧ autoPlayTick st env rand = st) ∧
    ((roundStart st).isPlaying = true ∧
     playRound (roundStart st) env2 rand2 = roundStart st ∧
     autoPlayTick (roundStart st) env2 rand2 = roundStart st) := by
  constructor
  · intro h
    refine ⟨playRound_noop_when_playing st env rand h, ?_⟩
    cases hc : st.isCameraActive <;> simp [autoPlayTick, h, hc]
  · refine ⟨rfl, ?_, ?_⟩
    · exact playRound_noop_when_playing _ env2 rand2 rfl
    · cases hc : st.isCameraActive <;>
        simp [autoPlayTick, roundStart, hc, playRound]

/-- Concrete mid-flight state for the guard scenario. -/
def st4 : AppState :=
  { isCameraActive := true
    isPlaying := true
    score := ⟨0, 0, 0⟩
    currentPrediction := none
    computerChoice := none
    gameResult := none }

/-- Concrete healthy environment for the guard scenario. -/
def env4 : PredictEnv :=
  { modelLoaded := true
    videoAvailable := true
    canvasAvailable := true
    ctxAvailable := true
    videoWidth := 320
    videoHeight := 240
    handDetected := false
    handBoundingBox := none
    framePixels := fun _ => []
    resizePixels := fun _ => []
    modelPredict := fun _ => (1, 0, 0) }

theorem inflight_guard_drops_triggers_witness :
    (playRound st4 env4 1 = st4 ∧ autoPlayTick st4 env4 1 = st4) ∧
    playRound (roundStart st4) env4 2 = roundStart st4 :=
  ⟨(inflight_guard_drops_triggers st4 env4 env4 1 1).1 rfl,
   (inflight_guard_drops_triggers st4 env4 env4 1 2).2.2.1⟩

/-- Concrete state for the unavailable-resource scenario: the previous
round was resolved as a win and its prediction is still displayed. -/
def st10 : AppState :=
  { isCameraActive := true
    isPlaying := false
    score := ⟨1, 2, 3⟩
    currentPrediction := some ⟨.paper, 9 / 10⟩
    computerChoice := some .rock
    gameResult := some .win }

/-- Concrete environment in which the model is not loaded. -/
def env10 : PredictEnv :=
  { modelLoaded := false
    videoAvailable := true
    canvasAvailable := true
    ctxAvailable := true
    videoWidth := 320
    videoHeight := 240
    handDetected := false
    handBoundingBox := none
    framePixels := fun _ => []
    resizePixels := fun _ => []
    modelPredict := fun _ => (1, 0, 0) }

/-- C10 counterexample: with the model not loaded, predictGesture does
return null without an error, but playRound does not leave the game
result unchanged: the round start clears it to null, so a previously
displayed result is lost. -/
theorem guard_unavailable_clears_result_cex :
    predictGesture env10 = .ok none ∧
    (playRound st10 env10 0).gameResult = none ∧
    st10.gameResult = some .win ∧
    (playRound st10 env10 0).gameResult ≠ st10.gameResult := by
  refine ⟨rfl, rfl, rfl, ?_⟩
  decide

/-- C10 amended: if the model is not loaded, or the video element, the
processing canvas or its 2d context is unavailable, predictGesture
returns null without raising an error, and playRound ends the round early
with the in-flight guard released, the score, current prediction and
computer choice unchanged, and the game result cleared to null (it is
reset at round start, so it is not in general unchanged). -/
theorem guard_unavailable_aborts (st : AppState) (env : PredictEnv)
    (rand : Fin 3) (hcam : st.isCameraActive = true)
    (hplay : st.isPlaying = false)
    (hguard : env.modelLoaded = false ∨ env.videoAvailable = false ∨
      env.canvasAvailable = false ∨ env.ctxAvailable = false) :
    predictGesture env = .ok none ∧
    playRound st env rand = { st with isPlaying := false, gameResult := none } ∧
    (playRound st env rand).score = st.score ∧
    (playRound st env rand).currentPrediction = st.currentPrediction ∧
    (playRound st env rand).computerChoice = st.computerChoice ∧
    (playRound st env rand).isPlaying = false ∧
    (playRound st env rand).gameResult = none := by
  have hp : predictGesture env = .ok none := by
    unfold predictGesture
    rcases hguard with h | h | h | h <;> simp [h]
  have ha := playRound_abort st env rand hcam hplay (Or.inl hp)
  rw [ha]
  exact ⟨hp, rfl, rfl, rfl, rfl, rfl, rfl⟩

theorem guard_unavailable_aborts_witness :
    predictGesture env10 = .ok none ∧
    playRound st10 env10 0 = { st10 with isPlaying := false, gameResult := none } ∧
    (playRound st10 env10 0).score = st10.score ∧
    (playRound st10 env10 0).currentPrediction = st10.currentPrediction ∧
    (playRound st10 env10 0).computerChoice = st10.computerChoice ∧
    (playRound st10 env10 0).isPlaying = false ∧
    (playRound st10 env10 0).gameResult = none :=
  guard_unavailable_aborts st10 env10 0 rfl rfl (Or.inl rfl)

/-- A degenerate detected bounding box: the hand locator callback computes
width as maxX minus minX plus padding, which is zero when all landmark x
coordinates coincide. -/
def box5 : Box := { x := 1 / 4, y := 1 / 4, width := 0, height := 1 / 2 }

/-- Concrete environment with a hand detected at a zero-width bounding
box. -/
def env5 : PredictEnv :=
  { modelLoaded := true
    videoAvailable := true
    canvasAvailable := true
    ctxAvailable := true
    videoWidth := 320
    videoHeight := 240
    handDetected := true
    handBoundingBox := some box5
    framePixels := fun _ => []
    resizePixels := fun _ => []
    modelPredict := fun _ => (1, 0, 0) }

/-- Concrete idle state for the degenerate-crop scenario. -/
def st5 : AppState :=
  { isCameraActive := true
    isPlaying := false
    score := ⟨0, 0, 0⟩
    currentPrediction := none
    computerChoice := none
    gameResult := none }

theorem predictGesture_invalidRegion (env : PredictEnv)
    (hm : env.modelLoaded = true) (hv : env.videoAvailable = true)
    (hc : env.canvasAvailable = true) (hctx : env.ctxAvailable = true)
    (hdeg : (cropRegion env).width = 0 ∨ (cropRegion env).height = 0) :
    predictGesture env = .error .invalidRegion := by
  unfold predictGesture
  simp only [hm, hv, hc, hctx, Bool.not_true, Bool.or_self, Bool.false_eq_true, if_false]
  exact if_pos hdeg

theorem cropRegion_env5_width : (cropRegion env5).width = 0 := by
  simp [cropRegion, env5, box5]

/-- C5 counterexample: on a zero-width detected crop, preprocessing does
fail with the InvalidRegion error, but the caller does not fall back to
the default centered region: the error propagates to playRound, which
aborts the round without any resolved outcome, so no prediction is
produced at all. -/
theorem degenerate_region_no_fallback_cex :
    (cropRegion env5).width = 0 ∧
    predictGesture env5 = .error .invalidRegion ∧
    playRound st5 env5 0 = { st5 with isPlaying := false, gameResult := none } ∧
    (playRound st5 env5 0).gameResult = none := by
  have hw := cropRegion_env5_width
  have hp := predictGesture_invalidRegion env5 rfl rfl rfl rfl (Or.inl hw)
  have ha := playRound_abort st5 env5 0 rfl rfl (Or.inr ⟨_, hp⟩)
  exact ⟨hw, hp, ha, by rw [ha]⟩

/-- C5 amended: for every input region with zero width or zero height,
preprocessing fails with the InvalidRegion error and never returns a
tensor; the error propagates to the round controller, which aborts the
round with the score unchanged and the guard released — the fallback
centered region is used only when no hand was detected, not as a recovery
from a degenerate detected crop. -/
theorem degenerate_region_aborts_round (env : PredictEnv)
    (hm : env.modelLoaded = true) (hv : env.videoAvailable = true)
    (hc : env.canvasAvailable = true) (hctx : env.ctxAvailable = true)
    (hdeg : (cropRegion env).width = 0 ∨ (cropRegion env).height = 0) :
    predictGesture env = .error .invalidRegion ∧
    ∀ (st : AppState) (rand : Fin 3),
      st.isCameraActive = true → st.isPlaying = false →
      playRound st env rand = { st with isPlaying := false, gameResult := none } ∧
      (playRound st env rand).score = st.score := by
  have hp := predictGesture_invalidRegion env hm hv hc hctx hdeg
  refine ⟨hp, fun st rand hcam hplay => ?_⟩
  have ha := playRound_abort st env rand hcam hplay (Or.inr ⟨_, hp⟩)
  rw [ha]
  exact ⟨rfl, rfl⟩

theorem degenerate_region_aborts_round_witness :
    predictGesture env5 = .error .invalidRegion ∧
    playRound st5 env5 0 = { st5 with isPlaying := false, gameResult := none } ∧
    (playRound st5 env5 0).score = st5.score := by
  have h := degenerate_region_aborts_round env5 rfl rfl rfl rfl
    (Or.inl cropRegion_env5_width)
  exact ⟨h.1, h.2 st5 0 rfl rfl⟩

theorem playRound_score_step (st : AppState) (env : PredictEnv) (rand : Fin 3) :
    (playRound st env rand).score = st.score ∨
    ∃ r, (playRound st env rand).score = updateScore r st.score := by
  unfold playRound
  by_cases hg : (!st.isCameraActive || st.isPlaying) = true
  · rw [if_pos hg]
    exact Or.inl rfl
  · rw [if_neg hg]
    cases hpg : predictGesture env with
    | error e => exact Or.inl rfl
    | ok o =>
      cases o with
      | none => exact Or.inl rfl
      | some pr => exact Or.inr ⟨_, rfl⟩

/-- Preprocessing target side length of the training script, from
train.ts lines 25-26: sharp resize to 64 by 64 and a tensor of shape
[64, 64, 3]. -/
def trainTargetSize : Nat := 64

/-- Declared model input side from createModel in train.ts line 42:
inputShape [64, 64, 3]. -/
def trainModelInputSize : Nat := 64

/-- Preprocessing target side length of the prediction script, from
predict.ts lines 61-62: sharp resize to 16 by 16 and a tensor of shape
[16, 16, 3]. -/
def predictTargetSize : Nat := 16

/-- Declared model input side from createModel in predict.ts line 30:
inputShape [16, 16, 3]. -/
def predictModelInputSize : Nat := 16

/-- Preprocessing target side length of the browser inference path, from
App.tsx lines 327-343: the temporary canvas is 16 by 16. -/
def appTargetSize : Nat := 16

/-- Declared input side of the in-browser demo model, App.tsx line 86:
inputShape [16, 16, 3]. -/
def appDemoModelInputSize : Nat := 16

/-- C6: each file is internally consistent (its preprocessing size equals
its own declared model input size), but the training script preprocesses
to 64 by 64 while both inference paths preprocess to 16 by 16, so the
target size N is not a single shared configuration constant: the
training-time side length differs from the inference-time side length. -/
theorem train_inference_size_mismatch :
    trainTargetSize = 64 ∧ trainModelInputSize = 64 ∧
    predictTargetSize = 16 ∧ predictModelInputSize = 16 ∧
    appTargetSize = 16 ∧ appDemoModelInputSize = 16 ∧
    trainTargetSize = trainModelInputSize ∧
    predictTargetSize = predictModelInputSize ∧
    appTargetSize = appDemoModelInputSize ∧
    trainTargetSize ≠ predictTargetSize ∧
    trainTargetSize ≠ appTargetSize := by
  decide

/-- C7: on any list of raw 8-bit channel values of a 16 by 16 RGB
image, the normalisation step keeps the fixed 16 by 16 by 3 shape, maps
every entry to the raw value divided by 255, and therefore every entry of
the resulting tensor lies between 0 and 1. -/
theorem normalizeTensor_entries (data : List Nat)
    (hlen : data.length = 16 * 16 * 3) (hbyte : ∀ v ∈ data, v ≤ 255) :
    (normalizeTensor data).length = 16 * 16 * 3 ∧
    (∀ i, i < 16 * 16 * 3 →
      (normalizeTensor data).getD i 0 = (data.getD i 0 : ℚ) / 255) ∧
    (∀ q ∈ normalizeTensor data, 0 ≤ q ∧ q ≤ 1) := by
  have hln : (normalizeTensor data).length = data.length := by
    simp only [normalizeTensor, List.length_map]
  refine ⟨by rw [hln, hlen], ?_, ?_⟩
  · intro i hi
    have hi' : i < data.length := by rw [hlen]; exact hi
    rw [List.getD_eq_getElem _ _ (by rw [hln, hlen]; exact hi),
      List.getD_eq_getElem _ _ hi']
    simp only [normalizeTensor, List.getElem_map]
  · intro q hq
    simp only [normalizeTensor, List.mem_map] at hq
    obtain ⟨v, hv, rfl⟩ := hq
    refine ⟨by positivity, ?_⟩
    rw [div_le_one (by norm_num)]
    exact_mod_cast hbyte v hv

/-- A concrete 16 by 16 by 3 byte buffer for the normalisation witness. -/
def sampleBytes : List Nat := List.replicate 768 37

theorem normalizeTensor_entries_witness :
    (normalizeTensor sampleBytes).length = 16 * 16 * 3 ∧
    (∀ i, i < 16 * 16 * 3 →
      (normalizeTensor sampleBytes).getD i 0 = (sampleBytes.getD i 0 : ℚ) / 255) ∧
    (∀ q ∈ normalizeTensor sampleBytes, 0 ≤ q ∧ q ≤ 1) :=
  normalizeTensor_entries sampleBytes
    (by norm_num [sampleBytes, List.length_replicate])
    (by
      intro v hv
      have h37 : v = 37 := List.eq_of_mem_replicate hv
      omega)

theorem cropRegion_fallback (env : PredictEnv) (hhand : env.handDetected = false) :
    cropRegion env =
      { x := (env.videoWidth - min env.videoWidth env.videoHeight * (6 / 10)) / 2
        y := (env.videoHeight - min env.videoWidth env.videoHeight * (6 / 10)) / 2
        width := min env.videoWidth env.videoHeight * (6 / 10)
        height := min env.videoWidth env.videoHeight * (6 / 10) } := by
  cases hbb : env.handBoundingBox <;> simp [cropRegion, hhand, hbb]

theorem predictGesture_ok (env : PredictEnv)
    (hm : env.modelLoaded = true) (hv : env.videoAvailable = true)
    (hc : env.canvasAvailable = true) (hctx : env.ctxAvailable = true)
    (hne : ¬((cropRegion env).width = 0 ∨ (cropRegion env).height = 0)) :
    predictGesture env = .ok (some
      { gesture := predictedGesture (env.modelPredict (normalizeTensor
          (env.resizePixels (env.framePixels (cropRegion env)))))
        confidence := predictedConfidence (env.modelPredict (normalizeTensor
          (env.resizePixels (env.framePixels (cropRegion env))))) }) := by
  unfold predictGesture
  simp only [hm, hv, hc, hctx, Bool.not_true, Bool.or_self, Bool.false_eq_true, if_false]
  exact if_neg hne

/-- C8: when no hand is located but the frame is non-degenerate, the
classification uses the fallback region, the centered square covering 60
percent of the shorter frame dimension, and the round still resolves:
predictGesture returns a prediction and playRound records a result and a
score update. -/
theorem fallback_region_resolves (st : AppState) (env : PredictEnv) (rand : Fin 3)
    (hcam : st.isCameraActive = true) (hplay : st.isPlaying = false)
    (hm : env.modelLoaded = true) (hv : env.videoAvailable = true)
    (hc : env.canvasAvailable = true) (hctx : env.ctxAvailable = true)
    (hhand : env.handDetected = false)
    (hw : 0 < env.videoWidth) (hh : 0 < env.videoHeight) :
    (cropRegion env).width = min env.videoWidth env.videoHeight * (6 / 10) ∧
    (cropRegion env).height = min env.videoWidth env.videoHeight * (6 / 10) ∧
    (cropRegion env).x = (env.videoWidth - (cropRegion env).width) / 2 ∧
    (cropRegion env).y = (env.videoHeight - (cropRegion env).height) / 2 ∧
    ∃ pr : PredictionResult, predictGesture env = .ok (some pr) ∧
      playRound st env rand =
        { st with
          currentPrediction := some pr
          computerChoice := some (CLASSES.getD rand.val .rock)
          gameResult := some (determineWinner pr.gesture (CLASSES.getD rand.val .rock))
          score := updateScore (determineWinner pr.gesture (CLASSES.getD rand.val .rock)) st.score
          isPlaying := false } := by
  have hcr := cropRegion_fallback env hhand
  have hpos : 0 < min env.videoWidth env.videoHeight * (6 / 10 : ℚ) :=
    mul_pos (lt_min hw hh) (by norm_num)
  have hwne : (cropRegion env).width ≠ 0 := by rw [hcr]; exact ne_of_gt hpos
  have hhne : (cropRegion env).height ≠ 0 := by rw [hcr]; exact ne_of_gt hpos
  have hne : ¬((cropRegion env).width = 0 ∨ (cropRegion env).height = 0) := by
    rintro (h | h)
    exacts [hwne h, hhne h]
  have hpred := predictGesture_ok env hm hv hc hctx hne
  refine ⟨by rw [hcr], by rw [hcr], by rw [hcr], by rw [hcr], ?_⟩
  refine ⟨_, hpred, ?_⟩
  simp only [playRound, hcam, hplay, Bool.not_true, Bool.or_false, Bool.false_eq_true,
    if_false]
  rw [hpred]
  simp [roundStart, hcam]

/-- Concrete idle state for the fallback-region scenario. -/
def st8 : AppState :=
  { isCameraActive := true
    isPlaying := false
    score := ⟨0, 1, 0⟩
    currentPrediction := none
    computerChoice := none
    gameResult := none }

/-- Concrete healthy environment with no hand detected. -/
def env8 : PredictEnv :=
  { modelLoaded := true
    videoAvailable := true
    canvasAvailable := true
    ctxAvailable := true
    videoWidth := 320
    videoHeight := 240
    handDetected := false
    handBoundingBox := none
    framePixels := fun _ => []
    resizePixels := fun _ => []
    modelPredict := fun _ => (0, 1, 0) }

theorem fallback_region_resolves_witness :
    (cropRegion env8).width = min env8.videoWidth env8.videoHeight * (6 / 10) ∧
    ∃ pr : PredictionResult, predictGesture env8 = .ok (some pr) ∧
      playRound st8 env8 2 =
        { st8 with
          currentPrediction := some pr
          computerChoice := some (CLASSES.getD (2 : Fin 3).val .rock)
          gameResult := some (determineWinner pr.gesture (CLASSES.getD (2 : Fin 3).val .rock))
          score := updateScore (determineWinner pr.gesture
            (CLASSES.getD (2 : Fin 3).val .rock)) st8.score
          isPlaying := false } := by
  have h := fallback_region_resolves st8 env8 2 rfl rfl rfl rfl rfl rfl rfl
    (by norm_num [env8]) (by norm_num [env8])
  exact ⟨h.1, h.2.2.2.2⟩

/-- Modelled from the spec: the arg-max index of a length-3 probability
vector, that is the first index attaining the maximum value. This is the
specification-side definition that the indexOf-based selection of the
code is compared with. -/
def argmax3 (p0 p1 p2 : ℚ) : Nat :=
  if p0 = max p0 (max p1 p2) then 0
  else if p1 = max p0 (max p1 p2) then 1
  else 2

theorem mathMax_triple (p0 p1 p2 : ℚ) :
    mathMax [p0, p1, p2] = max p0 (max p1 p2) := by
  simp only [mathMax, List.headD_cons, List.foldl_cons, List.foldl_nil]
  rw [max_self, max_assoc]

theorem indexOf_triple (p0 p1 p2 m : ℚ) :
    [p0, p1, p2].indexOf m =
      if p0 = m then 0 else if p1 = m then 1 else if p2 = m then 2 else 3 := by
  by_cases h0 : p0 = m <;> by_cases h1 : p1 = m <;> by_cases h2 : p2 = m <;>
    simp [List.indexOf_cons, h0, h1, h2]

/-- C9: for every length-3 probability vector, the gesture selected by the
inference path (CLASSES at the indexOf of the Math.max of the vector) is
the gesture at the arg-max index, the first index attaining the maximum,
mapped through the fixed class ordering rock, paper, scissors: it equals
the spec-side argmax3, the selected index is below 3, the probability at
the selected index dominates every entry, and every earlier entry is
strictly below it. -/
theorem predicted_gesture_is_argmax (p0 p1 p2 : ℚ) :
    predictedGesture (p0, p1, p2) = CLASSES.getD (argmax3 p0 p1 p2) .rock ∧
    argmax3 p0 p1 p2 < 3 ∧
    (∀ j : Fin 3, (probsList (p0, p1, p2)).getD j 0 ≤
      (probsList (p0, p1, p2)).getD (argmax3 p0 p1 p2) 0) ∧
    (∀ j : Fin 3, (j : Nat) < argmax3 p0 p1 p2 →
      (probsList (p0, p1, p2)).getD j 0 <
        (probsList (p0, p1, p2)).getD (argmax3 p0 p1 p2) 0) := by
  have hle0 : p0 ≤ max p0 (max p1 p2) := le_max_left _ _
  have hle1 : p1 ≤ max p0 (max p1 p2) :=
    le_trans (le_max_left _ _) (le_max_right _ _)
  have hle2 : p2 ≤ max p0 (max p1 p2) :=
    le_trans (le_max_right _ _) (le_max_right _ _)
  have hchoice : p0 = max p0 (max p1 p2) ∨ p1 = max p0 (max p1 p2) ∨
      p2 = max p0 (max p1 p2) := by
    rcases max_choice p0 (max p1 p2) with h | h
    · exact Or.inl h.symm
    · rcases max_choice p1 p2 with h2 | h2
      · refine Or.inr (Or.inl ?_)
        rw [h, h2]
      · refine Or.inr (Or.inr ?_)
        rw [h, h2]
  have hidx : maxIndex (p0, p1, p2) =
      if p0 = max p0 (max p1 p2) then 0
      else if p1 = max p0 (max p1 p2) then 1
      else if p2 = max p0 (max p1 p2) then 2 else 3 := by
    simp only [maxIndex, probsList]
    rw [mathMax_triple]
    exact indexOf_triple p0 p1 p2 _
  by_cases h0 : p0 = max p0 (max p1 p2)
  · have hA : argmax3 p0 p1 p2 = 0 := by rw [argmax3, if_pos h0]
    have hI : maxIndex (p0, p1, p2) = 0 := by rw [hidx, if_pos h0]
    refine ⟨?_, ?_, ?_, ?_⟩
    · rw [predictedGesture, hI, hA]
    · rw [hA]
      norm_num
    · intro j
      have hg : (probsList (p0, p1, p2)).getD (argmax3 p0 p1 p2) 0 = p0 := by
        rw [hA]
        rfl
      rw [hg]
      fin_cases j
      · exact le_refl p0
      · exact le_trans hle1 (le_of_eq h0.symm)
      · exact le_trans hle2 (le_of_eq h0.symm)
    · intro j hj
      rw [hA] at hj
      exact absurd hj (Nat.not_lt_zero _)
  · by_cases h1 : p1 = max p0 (max p1 p2)
    · have hA : argmax3 p0 p1 p2 = 1 := by rw [argmax3, if_neg h0, if_pos h1]
      have hI : maxIndex (p0, p1, p2) = 1 := by rw [hidx, if_neg h0, if_pos h1]
      have hlt0 : p0 < p1 := by
        rw [h1]
        exact lt_of_le_of_ne hle0 h0
      refine ⟨?_, ?_, ?_, ?_⟩
      · rw [predictedGesture, hI, hA]
      · rw [hA]
        norm_num
      · intro j
        have hg : (probsList (p0, p1, p2)).getD (argmax3 p0 p1 p2) 0 = p1 := by
          rw [hA]
          rfl
        rw [hg]
        fin_cases j
        · exact le_trans hle0 (le_of_eq h1.symm)
        · exact le_refl p1
        · exact le_trans hle2 (le_of_eq h1.symm)
      · intro j hj
        rw [hA] at hj
        have hg : (probsList (p0, p1, p2)).getD (argmax3 p0 p1 p2) 0 = p1 := by
          rw [hA]
          rfl
        rw [hg]
        fin_cases j
        · exact hlt0
        · exact absurd hj (by norm_num)
        · exact absurd hj (by norm_num)
    · have h2 : p2 = max p0 (max p1 p2) := by
        rcases hchoice with h | h | h
        · exact absurd h h0
        · exact absurd h h1
        · exact h
      have hA : argmax3 p0 p1 p2 = 2 := by rw [argmax3, if_neg h0, if_neg h1]
      have hI : maxIndex (p0, p1, p2) = 2 := by
        rw [hidx, if_neg h0, if_neg h1, if_pos h2]
      have hlt0 : p0 < p2 := by
        rw [h2]
        exact lt_of_le_of_ne hle0 h0
      have hlt1 : p1 < p2 := by
        rw [h2]
        exact lt_of_le_of_ne hle1 h1
      refine ⟨?_, ?_, ?_, ?_⟩
      · rw [predictedGesture, hI, hA]
      · rw [hA]
        norm_num
      · intro j
        have hg : (probsList (p0, p1, p2)).getD (argmax3 p0 p1 p2) 0 = p2 := by
          rw [hA]
          rfl
        rw [hg]
        fin_cases j
        · exact le_trans hle0 (le_of_eq h2.symm)
        · exact le_trans hle1 (le_of_eq h2.symm)
        · exact le_refl p2
      · intro j hj
        rw [hA] at hj
        have hg : (probsList (p0, p1, p2)).getD (argmax3 p0 p1 p2) 0 = p2 := by
          rw [hA]
          rfl
        rw [hg]
        fin_cases j
        · exact hlt0
        · exact hlt1
        · exact absurd hj (by norm_num)

theorem predicted_gesture_is_argmax_witness :
    predictedGesture (0, 1, 0) = CLASSES.getD (argmax3 0 1 0) .rock ∧
    (probsList (0, 1, 0)).getD ((0 : Fin 3) : Nat) 0 <
      (probsList (0, 1, 0)).getD (argmax3 0 1 0) 0 := by
  have h := predicted_gesture_is_argmax 0 1 0
  refine ⟨h.1, h.2.2.2 0 ?_⟩
  have h10 : max (1 : ℚ) 0 = 1 := max_eq_left (by norm_num)
  have h01 : max (0 : ℚ) 1 = 1 := max_eq_right (by norm_num)
  have ha : argmax3 0 1 0 = 1 := by
    rw [argmax3, h10, h01]
    norm_num
  rw [ha]
  simp
